import Mathlib

/-!
Verification of the Bypass-Subtitles adaptive streaming/dispatch pipeline.

This file shallowly embeds the pipeline code of the browser extension
(`extension/content.js` content script and the background service worker)
and proves properties about the embedding.  JavaScript numbers are modelled
as exact rationals (`ℚ`) where the code performs non-integer arithmetic,
as `ℕ`/`ℤ` where values are integral; byte buffers are lists of `ℕ`
(each `< 256`), and 16-bit PCM samples are `ℤ` values.
-/

/-- `CONFIG.AUDIO_CHUNK_DURATION_MS` in `content.js`: the default chunk
duration of 3000 ms. -/
def configAudioChunkDurationMs : ℕ := 3000

/-- `MAX_LAG_MS` in `content.js`: chunks older than 5000 ms are skipped. -/
def maxLagMs : ℚ := 5000

/-- A subtitle rendered into the overlay by `displaySubtitle` in
`content.js`: the original text, the translated text and the
`showOriginal` flag it was invoked with. -/
structure SubtitleContent where
  original : String
  translated : String
  showOriginal : Bool
deriving DecidableEq, Repr

/-- The mutable session state of `content.js` (the module-level `let`
bindings that the dispatch pipeline reads and writes).
`subtitleOverlay = none` models a removed overlay; `some c` models an
overlay element whose current content is `c` (`none` inside = empty
`innerHTML`).  `sendInterval = some d` models a live periodic flush timer
with period `d`; `none` models a cleared timer. -/
structure ContentState where
  isEnabled : Bool
  audioChunks : List (List ℤ)
  lagAccumulator : ℚ
  currentChunkDuration : ℕ
  lastProcessingTime : ℕ
  sendInterval : Option ℕ
  websocketOpen : Bool
  subtitleOverlay : Option (Option SubtitleContent)
  settingsShowOriginal : Bool
deriving DecidableEq, Repr

/-- `adaptChunkSize` in `content.js`, projected to the new value of
`currentChunkDuration`.  The source compares
`processingTime > currentChunkDuration * 0.8` and
`processingTime < currentChunkDuration * 0.3` in IEEE double arithmetic;
for the integer millisecond values involved those comparisons agree with
the exact rational ones used here. -/
def adaptChunkSize (D p : ℕ) : ℕ :=
  if (p : ℚ) > (D : ℚ) * 0.8 ∧ D < 6000 then
    min 6000 (D + 500)
  else if (p : ℚ) < (D : ℚ) * 0.3 ∧ D > 2000 then
    max 2000 (D - 500)
  else D

/-- `restartSendInterval` in `content.js`: clears any existing flush timer
and unconditionally starts a new one at the current chunk duration. -/
def restartSendInterval (s : ContentState) : ContentState :=
  { s with sendInterval := some s.currentChunkDuration }

/-- `adaptChunkSize` in `content.js` as a state transformer: in the two
branches that change `currentChunkDuration` it also calls
`restartSendInterval`; otherwise the state is untouched. -/
def adaptChunkSizeState (s : ContentState) (p : ℕ) : ContentState :=
  if (p : ℚ) > (s.currentChunkDuration : ℚ) * 0.8 ∧ s.currentChunkDuration < 6000 then
    restartSendInterval { s with currentChunkDuration := min 6000 (s.currentChunkDuration + 500) }
  else if (p : ℚ) < (s.currentChunkDuration : ℚ) * 0.3 ∧ s.currentChunkDuration > 2000 then
    restartSendInterval { s with currentChunkDuration := max 2000 (s.currentChunkDuration - 500) }
  else s

/-- `resetTranscriptionState` in `content.js` (called on video change):
clears the audio buffer, zeroes the lag accumulator, restores the default
chunk duration and empties the overlay if one exists. -/
def resetTranscriptionState (s : ContentState) : ContentState :=
  { s with
    audioChunks := []
    lagAccumulator := 0
    currentChunkDuration := configAudioChunkDurationMs
    subtitleOverlay := s.subtitleOverlay.map (fun _ => none) }

/-- The `seeking` event listener installed by `setupVideoEventListeners`
in `content.js`: clears the audio buffer and empties the overlay.  It does
not touch `lagAccumulator` or `currentChunkDuration`. -/
def seekingHandler (s : ContentState) : ContentState :=
  { s with
    audioChunks := []
    subtitleOverlay := s.subtitleOverlay.map (fun _ => none) }

/-- `stopAudioCapture` in `content.js`, restricted to the modelled state:
disconnects the processor (not modelled) and clears `audioChunks`. -/
def stopAudioCapture (s : ContentState) : ContentState :=
  { s with audioChunks := [] }

/-- `disableSubtitles` in `content.js`: clears the enabled flag, stops
capture, closes the websocket, clears the flush timer and removes the
overlay. -/
def disableSubtitles (s : ContentState) : ContentState :=
  let s1 := stopAudioCapture { s with isEnabled := false }
  { s1 with
    websocketOpen := false
    sendInterval := none
    subtitleOverlay := none }

/-- `clamp` as used in the specification's testable properties:
`clamp(x, lo, hi) = max lo (min hi x)`. -/
def clamp (x lo hi : ℕ) : ℕ := max lo (min hi x)

example : adaptChunkSize 3000 500 = 2500 := by norm_num [adaptChunkSize]
example : adaptChunkSize 2500 500 = 2000 := by norm_num [adaptChunkSize]
example : adaptChunkSize 2000 500 = 2000 := by norm_num [adaptChunkSize]
example : adaptChunkSize 3000 2500 = 3500 := by norm_num [adaptChunkSize]
example : adaptChunkSize 6000 5000 = 6000 := by norm_num [adaptChunkSize]

/-- JavaScript `String.prototype.trim()`: removes whitespace from both
ends of the string.  (Modelled directly over the character list because
Lean's own `String.trim` is defined by well-founded recursion and does
not reduce in the kernel.) -/
def jsTrim (s : String) : String :=
  ⟨((s.data.dropWhile Char.isWhitespace).reverse.dropWhile Char.isWhitespace).reverse⟩

/-- JavaScript `a || b` on an optional string `a` (absent and empty
strings are falsy). -/
def jsOr (a : Option String) (b : String) : String :=
  match a with
  | some v => if v = "" then b else v
  | none => b

/-- A transcription-result message as consumed by `handleTranscription`
in `content.js`: either the background script's Groq response
(`{text, original, translated, showOriginal}` or `{error}`) or a parsed
websocket message from the local backend.  `videoTime` is the playback
position the corresponding chunk was sent at; it is carried on the
outbound wire but `handleTranscription` never reads it. -/
structure RespData where
  error : Option String := none
  text : Option String := none
  original : Option String := none
  translated : Option String := none
  showOriginal : Option Bool := none
  videoTime : Option ℚ := none
deriving DecidableEq, Repr

/-- `displaySubtitle` in `content.js`, projected to the modelled state:
a no-op when the overlay has been removed, otherwise it clears the
overlay's `innerHTML` and renders the new subtitle (the previous content
is unconditionally replaced). -/
def displaySubtitleState (s : ContentState) (original translated : String)
    (so : Bool) : ContentState :=
  match s.subtitleOverlay with
  | none => s
  | some _ => { s with subtitleOverlay := some (some ⟨original, translated, so⟩) }

/-- `handleTranscription` in `content.js`: ignores error payloads, takes
`original = data.original || data.text || ''`,
`translated = data.translated || ''`,
`showOriginal = data.showOriginal !== false && currentSettings.showOriginal`,
and displays the subtitle when either trimmed text is non-empty. -/
def handleTranscriptionState (s : ContentState) (data : RespData) : ContentState :=
  if data.error.isSome then s
  else
    let original := jsOr data.original (jsOr data.text "")
    let translated := jsOr data.translated ""
    let so := (!(data.showOriginal == some false)) && s.settingsShowOriginal
    if jsTrim original ≠ "" ∨ jsTrim translated ≠ "" then
      displaySubtitleState s original translated so
    else s

/-- The pre-send lag check at the top of `sendToGroqAPI` in `content.js`:
`chunkAge = Date.now() − videoTime * 1000`; if `chunkAge > MAX_LAG_MS`
the chunk is dropped (`lagAccumulator = 0; return`), otherwise the send
proceeds.  The returned `Bool` is `true` when the chunk is dispatched. -/
def groqLagCheck (s : ContentState) (now videoTime : ℚ) : ContentState × Bool :=
  let chunkAge := now - videoTime * 1000
  if chunkAge > maxLagMs then ({ s with lagAccumulator := 0 }, false)
  else (s, true)

/-- The completion path of `sendToGroqAPI` in `content.js` — the code run
when the awaited `chrome.runtime.sendMessage` resolves with `response`
after `processingTime` ms: it unconditionally records
`lastProcessingTime`, runs `adaptChunkSize` (which may restart the flush
timer), then returns early on an error response and otherwise feeds the
result to `handleTranscription`.  No `isEnabled` check occurs anywhere on
this path. -/
def groqCompletion (s : ContentState) (processingTime : ℕ)
    (response : RespData) : ContentState :=
  let s1 := adaptChunkSizeState { s with lastProcessingTime := processingTime } processingTime
  if response.error.isSome then s1
  else handleTranscriptionState s1 response

/-- An HTTP response as observed by the background script's fetch of the
Groq endpoint: its status code, the optional `retry-after` header (in
seconds) and the optional `error.message` of the JSON error body.
`ok` corresponds to `Response.ok` (status in 200..299). -/
structure HttpResponse where
  status : ℕ
  retryAfter : Option ℕ := none
  bodyText : String := ""
  errorMessage : Option String := none
deriving DecidableEq, Repr

/-- `Response.ok` in the fetch API: status in the range 200..299. -/
def HttpResponse.ok (r : HttpResponse) : Bool :=
  decide (200 ≤ r.status ∧ r.status < 300)

/-- The result object returned by `handleGroqTranscription` in the
background service worker. -/
structure GroqResult where
  text : String
  original : String
  translated : Option String
  showOriginal : Option Bool
deriving DecidableEq, Repr

/-- `handleGroqTranscription` in the background service worker, as a
function of the sequence of HTTP responses the network would return for
successive fetch attempts.  The code performs EXACTLY ONE fetch: it
consumes only the head of `responses`, never sleeps, and on any non-ok
response (429 included) immediately throws
`errorData.error?.message || "HTTP <status>"`.  The second component
counts the fetch attempts made and the third lists the waits (in ms)
performed before retries — always `1` and `[]` respectively once the
API-key guard passes. -/
def handleGroqTranscription (apiKey : String) (showOriginal : Bool)
    (responses : List HttpResponse) : Except String GroqResult × ℕ × List ℕ :=
  if apiKey = "" then (.error "No API key provided", 0, [])
  else
    match responses with
    | [] => (.error "network failure", 0, [])
    | r :: _ =>
      if r.ok then
        (.ok { text := r.bodyText, original := r.bodyText,
               translated := none, showOriginal := some showOriginal }, 1, [])
      else
        (.error ((r.errorMessage).getD ("HTTP " ++ toString r.status)), 1, [])

/-- `DataView.setUint16(_, x, true)`: the two little-endian bytes of
`x mod 2^16`. -/
def u16le (x : ℕ) : List ℕ :=
  let v := x % 65536
  [v % 256, v / 256]

/-- `DataView.setUint32(_, x, true)`: the four little-endian bytes of
`x mod 2^32`. -/
def u32le (x : ℕ) : List ℕ :=
  let v := x % 4294967296
  [v % 256, v / 256 % 256, v / 65536 % 256, v / 16777216 % 256]

/-- `writeString` in the background service worker: the byte sequence of
an ASCII tag written with `setUint8` per character code. -/
def strBytes (s : String) : List ℕ := s.data.map Char.toNat

/-- `DataView.setInt16(_, s, true)`: the two little-endian bytes of the
16-bit two's-complement representation of `s`. -/
def int16leBytes (s : ℤ) : List ℕ :=
  let u := (s % 65536).toNat
  [u % 256, u / 256]

/-- `createWavFile` in the background service worker: the 44-byte RIFF/WAVE
header followed by the PCM samples, each written little-endian with
`setInt16`.  Field for field as in the source: `numChannels = 1`,
`bitsPerSample = 16`, `byteRate = sampleRate * 1 * 2`, `blockAlign = 2`,
`dataSize = pcmData.length * 2`. -/
def createWavFile (pcmData : List ℤ) (sampleRate : ℕ) : List ℕ :=
  let numChannels := 1
  let bitsPerSample := 16
  let byteRate := sampleRate * numChannels * (bitsPerSample / 8)
  let blockAlign := numChannels * (bitsPerSample / 8)
  let dataSize := pcmData.length * (bitsPerSample / 8)
  strBytes "RIFF" ++ u32le (36 + dataSize) ++ strBytes "WAVE" ++
  strBytes "fmt " ++ u32le 16 ++ u16le 1 ++ u16le numChannels ++
  u32le sampleRate ++ u32le byteRate ++ u16le blockAlign ++ u16le bitsPerSample ++
  strBytes "data" ++ u32le dataSize ++ (pcmData.map int16leBytes).flatten

/-- The base64 alphabet used by `btoa`/`atob`. -/
def b64chars : List Char :=
  "ABCDEFGHIJKLMNOPQRSTUVWXYZabcdefghijklmnopqrstuvwxyz0123456789+/".data

/-- The base64 digit for a 6-bit value. -/
def encB64 (k : ℕ) : Char := b64chars.getD k '?'

/-- The 6-bit value of a base64 digit (`atob`'s alphabet lookup). -/
def decB64 (c : Char) : ℕ := b64chars.indexOf c

/-- `arrayBufferToBase64` in `content.js` composed with the browser's
`btoa`, as a function from the buffer's bytes to the base64 character
sequence (standard base64 with `=` padding, per the HTML specification
of `btoa`). -/
def btoaBytes : List ℕ → List Char
  | b0 :: b1 :: b2 :: rest =>
      encB64 (b0 / 4) :: encB64 (b0 % 4 * 16 + b1 / 16) ::
      encB64 (b1 % 16 * 4 + b2 / 64) :: encB64 (b2 % 64) :: btoaBytes rest
  | [b0, b1] =>
      [encB64 (b0 / 4), encB64 (b0 % 4 * 16 + b1 / 16), encB64 (b1 % 16 * 4), '=']
  | [b0] =>
      [encB64 (b0 / 4), encB64 (b0 % 4 * 16), '=', '=']
  | [] => []

/-- The base64-to-bytes step of `base64ToBlob` in the background service
worker: the browser's `atob` (per the HTML specification) followed by
`charCodeAt` on every character of the binary string. -/
def atobChars : List Char → List ℕ
  | c0 :: c1 :: c2 :: c3 :: rest =>
      if c2 = '=' ∧ c3 = '=' ∧ rest = [] then
        [decB64 c0 * 4 + decB64 c1 / 16]
      else if c3 = '=' ∧ rest = [] then
        [decB64 c0 * 4 + decB64 c1 / 16, decB64 c1 % 16 * 16 + decB64 c2 / 4]
      else
        (decB64 c0 * 4 + decB64 c1 / 16) :: (decB64 c1 % 16 * 16 + decB64 c2 / 4) ::
        (decB64 c2 % 4 * 64 + decB64 c3) :: atobChars rest
  | _ => []

/-- `new Int16Array(bytes.buffer)` in `base64ToBlob`: reinterpret
consecutive little-endian byte pairs as signed 16-bit samples. -/
def bytesToSamples : List ℕ → List ℤ
  | b0 :: b1 :: rest =>
      (let u := b0 + 256 * b1
       if u < 32768 then (u : ℤ) else (u : ℤ) - 65536) :: bytesToSamples rest
  | _ => []

/-- JavaScript `ToInt16` (applied on assignment into an `Int16Array`):
reduce the integer modulo 2^16 into the range [-32768, 32767]. -/
def jsToInt16 (y : ℤ) : ℤ :=
  let m := y % 65536
  if m < 32768 then m else m - 65536

/-- JavaScript number-to-integer truncation (toward zero), on exact
rational values. -/
def jsTruncate (q : ℚ) : ℤ := if 0 ≤ q then ⌊q⌋ else ⌈q⌉

/-- One sample of the `onaudioprocess` float-to-int conversion in
`content.js`: `int16Data[i] = Math.max(-32768, Math.min(32767, x * 32768))`,
where storing into the `Int16Array` applies `ToInt16` (truncation toward
zero, then 16-bit wrap).  The Float32 input and the exact double product
`x * 32768` are modelled as exact rationals. -/
def processAudioSample (x : ℚ) : ℤ :=
  jsToInt16 (jsTruncate (max (-32768) (min 32767 (x * 32768))))

example : processAudioSample (1/2) = 16384 := by
  norm_num [processAudioSample, jsTruncate, jsToInt16]
example : createWavFile [1] 16000 =
    [82, 73, 70, 70, 38, 0, 0, 0, 87, 65, 86, 69, 102, 109, 116, 32,
     16, 0, 0, 0, 1, 0, 1, 0, 128, 62, 0, 0, 0, 125, 0, 0, 2, 0, 16, 0,
     100, 97, 116, 97, 2, 0, 0, 0, 1, 0] := by decide
example : atobChars (btoaBytes [1, 2, 3, 4]) = [1, 2, 3, 4] := by decide
example : atobChars (btoaBytes [255, 0]) = [255, 0] := by decide

/-- A reachable session state with `currentChunkDuration = 2500`: the
default state after one fast-processing adaptation step
(`adaptChunkSize 3000 500 = 2500`), with one undispatched capture buffer
and an empty overlay. -/
def midSessionState : ContentState :=
  { isEnabled := true
    audioChunks := [[1]]
    lagAccumulator := 0
    currentChunkDuration := 2500
    lastProcessingTime := 500
    sendInterval := some 2500
    websocketOpen := false
    subtitleOverlay := some none
    settingsShowOriginal := true }

/-- A freshly enabled session state: default duration, empty buffer,
zero lag, live flush timer at the default period. -/
def freshSessionState : ContentState :=
  { isEnabled := true
    audioChunks := []
    lagAccumulator := 0
    currentChunkDuration := configAudioChunkDurationMs
    lastProcessingTime := 0
    sendInterval := some configAudioChunkDurationMs
    websocketOpen := false
    subtitleOverlay := some none
    settingsShowOriginal := true }

/-- A successful Groq transcription response as forwarded to
`handleTranscription`. -/
def helloResponse : RespData := { text := some "hello" }

/-- The result of the dispatch sent at `videoTime = 13` (the fresher
chunk, delivered first). -/
def resultAt13 : RespData := { text := some "thirteen", videoTime := some 13 }

/-- The result of the dispatch sent at `videoTime = 10` (the staler
chunk, delivered second). -/
def resultAt10 : RespData := { text := some "ten", videoTime := some 10 }

/-- A network trace for the retry scenario: the first fetch attempt is
rate-limited (HTTP 429 with `retry-after: 2`); a retry would succeed. -/
def rateLimitTrace : List HttpResponse :=
  [{ status := 429, retryAfter := some 2 },
   { status := 200, bodyText := "hello" }]

/-- The byte at a given offset of a byte buffer (0 past the end): the
reader used to state what the WAV header declares. -/
def byteAt : List ℕ → ℕ → ℕ
  | [], _ => 0
  | b :: _, 0 => b
  | _ :: bs, n + 1 => byteAt bs n

/-- Little-endian 16-bit read from a byte buffer. -/
def readU16 (bs : List ℕ) (off : ℕ) : ℕ :=
  byteAt bs off + 256 * byteAt bs (off + 1)

/-- Little-endian 32-bit read from a byte buffer. -/
def readU32 (bs : List ℕ) (off : ℕ) : ℕ :=
  byteAt bs off + 256 * byteAt bs (off + 1) +
  65536 * byteAt bs (off + 2) + 16777216 * byteAt bs (off + 3)

/-- C2: for every duration `D` in [2000, 6000] and processing time `p`,
one adaptation step yields `min 6000 (D+500)` when `p > 0.8·D ∧ D < 6000`,
`max 2000 (D−500)` when `p < 0.3·D ∧ D > 2000`, and leaves `D` unchanged
in every other case, in particular in the dead zone `0.3·D ≤ p ≤ 0.8·D`;
starting at `D = 3000` with `p = 500` the duration sequence over four
consecutive steps is 3000 → 2500 → 2000 → 2000 → 2000. -/
theorem adaptChunkSize_adaptation_cases (D p : ℕ) (hlo : 2000 ≤ D) (hhi : D ≤ 6000) :
    ((p : ℚ) > (D : ℚ) * 0.8 ∧ D < 6000 → adaptChunkSize D p = min 6000 (D + 500)) ∧
    ((p : ℚ) < (D : ℚ) * 0.3 ∧ D > 2000 → adaptChunkSize D p = max 2000 (D - 500)) ∧
    ((D : ℚ) * 0.3 ≤ (p : ℚ) ∧ (p : ℚ) ≤ (D : ℚ) * 0.8 → adaptChunkSize D p = D) ∧
    (¬((p : ℚ) > (D : ℚ) * 0.8 ∧ D < 6000) ∧ ¬((p : ℚ) < (D : ℚ) * 0.3 ∧ D > 2000) →
      adaptChunkSize D p = D) ∧
    (adaptChunkSize 3000 500 = 2500 ∧ adaptChunkSize 2500 500 = 2000 ∧
      adaptChunkSize 2000 500 = 2000 ∧
      adaptChunkSize (adaptChunkSize (adaptChunkSize (adaptChunkSize 3000 500) 500) 500) 500
        = 2000) := by
  have hD : (0 : ℚ) ≤ (D : ℚ) := Nat.cast_nonneg D
  refine ⟨?_, ?_, ?_, ?_, ?_, ?_, ?_, ?_⟩
  · intro h
    unfold adaptChunkSize
    rw [if_pos h]
  · intro h
    have hnc1 : ¬((p : ℚ) > (D : ℚ) * 0.8 ∧ D < 6000) := by
      rintro ⟨h1, -⟩
      have := h.1
      linarith
    unfold adaptChunkSize
    rw [if_neg hnc1, if_pos h]
  · intro h
    have hnc1 : ¬((p : ℚ) > (D : ℚ) * 0.8 ∧ D < 6000) := by
      rintro ⟨h1, -⟩
      linarith [h.2]
    have hnc2 : ¬((p : ℚ) < (D : ℚ) * 0.3 ∧ D > 2000) := by
      rintro ⟨h2, -⟩
      linarith [h.1]
    unfold adaptChunkSize
    rw [if_neg hnc1, if_neg hnc2]
  · intro h
    unfold adaptChunkSize
    rw [if_neg h.1, if_neg h.2]
  · norm_num [adaptChunkSize]
  · norm_num [adaptChunkSize]
  · norm_num [adaptChunkSize]
  · norm_num [adaptChunkSize]

/-- Witness for `adaptChunkSize_adaptation_cases` at `D = 3000`,
`p = 500`. -/
theorem adaptChunkSize_adaptation_cases_witness :
    (2000 ≤ 3000 ∧ 3000 ≤ 6000) ∧
    ((500 : ℚ) < (3000 : ℚ) * 0.3 ∧ 3000 > 2000 →
      adaptChunkSize 3000 500 = max 2000 (3000 - 500)) :=
  ⟨⟨by norm_num, by norm_num⟩,
    (adaptChunkSize_adaptation_cases 3000 500 (by norm_num) (by norm_num)).2.1⟩

/-- C4: `currentChunkDuration` stays in [2000, 6000]: any adaptation step
from an in-range duration lands in range (so `clamp` is the identity on
the result), the default is 3000 (itself in range), and the video-change
reset restores the default. -/
theorem chunk_duration_invariant (D p : ℕ) (s : ContentState)
    (hlo : 2000 ≤ D) (hhi : D ≤ 6000) :
    (2000 ≤ adaptChunkSize D p ∧ adaptChunkSize D p ≤ 6000 ∧
      clamp (adaptChunkSize D p) 2000 6000 = adaptChunkSize D p) ∧
    (configAudioChunkDurationMs = 3000 ∧
      clamp configAudioChunkDurationMs 2000 6000 = configAudioChunkDurationMs) ∧
    (resetTranscriptionState s).currentChunkDuration = configAudioChunkDurationMs := by
  have hb : 2000 ≤ adaptChunkSize D p ∧ adaptChunkSize D p ≤ 6000 := by
    unfold adaptChunkSize
    split_ifs <;> omega
  refine ⟨⟨hb.1, hb.2, ?_⟩, ⟨rfl, by norm_num [clamp, configAudioChunkDurationMs]⟩, rfl⟩
  have h1 := hb.1
  have h2 := hb.2
  unfold clamp
  omega

/-- Witness for `chunk_duration_invariant` at `D = 3000`, `p = 500`. -/
theorem chunk_duration_invariant_witness :
    (2000 ≤ 3000 ∧ 3000 ≤ 6000) ∧
    (2000 ≤ adaptChunkSize 3000 500 ∧ adaptChunkSize 3000 500 ≤ 6000 ∧
      clamp (adaptChunkSize 3000 500) 2000 6000 = adaptChunkSize 3000 500) :=
  ⟨⟨by norm_num, by norm_num⟩,
    (chunk_duration_invariant 3000 500 freshSessionState (by norm_num) (by norm_num)).1⟩

/-- C5 counterexample: from the reachable state `midSessionState`
(duration 2500 after one fast adaptation), neither the seek handler nor
`disableSubtitles` restores `currentChunkDuration` to the default 3000,
so the claimed three-part postcondition fails for two of the three reset
triggers. -/
theorem reset_triggers_counterexample :
    ¬((seekingHandler midSessionState).lagAccumulator = 0 ∧
      (seekingHandler midSessionState).audioChunks = [] ∧
      (seekingHandler midSessionState).currentChunkDuration = configAudioChunkDurationMs) ∧
    ¬((disableSubtitles midSessionState).lagAccumulator = 0 ∧
      (disableSubtitles midSessionState).audioChunks = [] ∧
      (disableSubtitles midSessionState).currentChunkDuration = configAudioChunkDurationMs) := by
  constructor
  · rintro ⟨-, -, h⟩
    simp [seekingHandler, midSessionState, configAudioChunkDurationMs] at h
  · rintro ⟨-, -, h⟩
    simp [disableSubtitles, stopAudioCapture, midSessionState, configAudioChunkDurationMs] at h

/-- C5 amended: the video-change reset (`resetTranscriptionState`)
establishes all three postconditions (zero lag accumulator, empty buffer,
default duration); the seek handler and `disableSubtitles` empty the
buffer but leave both `lagAccumulator` and `currentChunkDuration`
unchanged (the accumulator is only ever written 0 by this code, so it is
still 0 on every reachable state, but neither trigger resets the
duration). -/
theorem reset_triggers_postconditions (s : ContentState) :
    ((resetTranscriptionState s).lagAccumulator = 0 ∧
      (resetTranscriptionState s).audioChunks = [] ∧
      (resetTranscriptionState s).currentChunkDuration = configAudioChunkDurationMs) ∧
    ((seekingHandler s).audioChunks = [] ∧
      (seekingHandler s).lagAccumulator = s.lagAccumulator ∧
      (seekingHandler s).currentChunkDuration = s.currentChunkDuration) ∧
    ((disableSubtitles s).audioChunks = [] ∧
      (disableSubtitles s).lagAccumulator = s.lagAccumulator ∧
      (disableSubtitles s).currentChunkDuration = s.currentChunkDuration) :=
  ⟨⟨rfl, rfl, rfl⟩, ⟨rfl, rfl, rfl⟩, ⟨rfl, rfl, rfl⟩⟩

/-- C1 counterexample: at a flush that dispatches (chunkAge = 4000 ms,
currentChunkDuration = 3000, lagAccumulator = 0), the code leaves the
accumulator at 0 instead of updating it by
`chunkAge − currentChunkDurationMs = 1000`; and at a dropping flush
(chunkAge = 6000 ms) with one buffered-but-undispatched capture block,
the chunk is dropped but the buffer is NOT cleared. -/
theorem groq_lag_check_counterexample :
    ((groqLagCheck freshSessionState 14000 10).2 = true ∧
      (groqLagCheck freshSessionState 14000 10).1.lagAccumulator ≠
        freshSessionState.lagAccumulator +
          ((14000 - 10 * 1000) - (freshSessionState.currentChunkDuration : ℚ))) ∧
    ((groqLagCheck midSessionState 16000 10).2 = false ∧
      (groqLagCheck midSessionState 16000 10).1.audioChunks ≠ []) := by
  refine ⟨⟨?_, ?_⟩, ?_, ?_⟩
  · norm_num [groqLagCheck, freshSessionState, maxLagMs]
  · norm_num [groqLagCheck, freshSessionState, maxLagMs, configAudioChunkDurationMs]
  · norm_num [groqLagCheck, midSessionState, maxLagMs]
  · norm_num [groqLagCheck, midSessionState, maxLagMs]

/-- C1 amended: `sendToGroqAPI` never accumulates lag.  At flush time it
computes `chunkAge = now − videoTime·1000` and compares that age itself
with `MAX_LAG_MS = 5000`: if `chunkAge > 5000` the chunk is dropped (not
sent), `lagAccumulator` is reset to exactly 0 and the audio buffer is
left untouched (it was already drained before dispatch); otherwise the
chunk is sent and the whole state — `lagAccumulator` included — is
unchanged. -/
theorem groq_lag_check_behavior (s : ContentState) (now videoTime : ℚ) :
    (now - videoTime * 1000 > maxLagMs →
      (groqLagCheck s now videoTime).2 = false ∧
      (groqLagCheck s now videoTime).1.lagAccumulator = 0 ∧
      (groqLagCheck s now videoTime).1.audioChunks = s.audioChunks ∧
      (groqLagCheck s now videoTime).1.currentChunkDuration = s.currentChunkDuration) ∧
    (now - videoTime * 1000 ≤ maxLagMs →
      groqLagCheck s now videoTime = (s, true)) := by
  constructor
  · intro h
    unfold groqLagCheck
    rw [if_pos h]
    exact ⟨rfl, rfl, rfl, rfl⟩
  · intro h
    unfold groqLagCheck
    rw [if_neg (not_lt.mpr h)]

/-- Witness for `groq_lag_check_behavior`: the dropping case at
`now = 20000`, `videoTime = 10` (chunkAge = 10000 > 5000). -/
theorem groq_lag_check_behavior_witness :
    ((20000 : ℚ) - 10 * 1000 > maxLagMs) ∧
    ((groqLagCheck midSessionState 20000 10).2 = false ∧
      (groqLagCheck midSessionState 20000 10).1.lagAccumulator = 0 ∧
      (groqLagCheck midSessionState 20000 10).1.audioChunks = midSessionState.audioChunks ∧
      (groqLagCheck midSessionState 20000 10).1.currentChunkDuration =
        midSessionState.currentChunkDuration) :=
  ⟨by norm_num [maxLagMs],
    (groq_lag_check_behavior midSessionState 20000 10).1 (by norm_num [maxLagMs])⟩

/-- C6 (code bug): disabling the session does clear the flush timer, but
the completion of an in-flight Groq dispatch performs no `isEnabled`
check: arriving after `disableSubtitles` with `processingTime = 500`, it
still records `lastProcessingTime`, shrinks `currentChunkDuration` to
2500 and — via `restartSendInterval` inside `adaptChunkSize` — creates a
fresh periodic flush timer on the torn-down session.  (Only the subtitle
display is a no-op, because the overlay element is gone.) -/
theorem completion_after_disable_restarts_timer :
    (disableSubtitles freshSessionState).isEnabled = false ∧
    (disableSubtitles freshSessionState).sendInterval = none ∧
    (groqCompletion (disableSubtitles freshSessionState) 500 helloResponse).sendInterval
      = some 2500 ∧
    (groqCompletion (disableSubtitles freshSessionState) 500 helloResponse).currentChunkDuration
      = 2500 ∧
    (groqCompletion (disableSubtitles freshSessionState) 500 helloResponse).lastProcessingTime
      = 500 ∧
    (groqCompletion (disableSubtitles freshSessionState) 500 helloResponse).subtitleOverlay
      = none := by
  refine ⟨rfl, rfl, ?_, ?_, ?_, ?_⟩ <;>
    norm_num [groqCompletion, disableSubtitles, stopAudioCapture, freshSessionState,
      helloResponse, adaptChunkSizeState, restartSendInterval, handleTranscriptionState,
      displaySubtitleState, jsOr, jsTrim, configAudioChunkDurationMs]

/-- `handleTranscription` never changes the settings and never adds or
removes the overlay element; it can only rewrite the overlay's content. -/
theorem handleTranscriptionState_preserves (s : ContentState) (d : RespData) :
    (handleTranscriptionState s d).settingsShowOriginal = s.settingsShowOriginal ∧
    ((handleTranscriptionState s d).subtitleOverlay.isSome ↔ s.subtitleOverlay.isSome) := by
  unfold handleTranscriptionState displaySubtitleState
  cases hso : s.subtitleOverlay <;> simp only [hso] <;> split_ifs <;> simp [hso]

/-- C7 counterexample: with both dispatch results carrying their
`videoTime` (13 and 10), delivering the fresher result first and the
staler one second makes the sink overwrite the rendered `videoTime = 13`
subtitle with the `videoTime = 10` one — arrival order, not `videoTime`,
decides what stays on screen. -/
theorem result_sink_overwrite_counterexample :
    (handleTranscriptionState freshSessionState resultAt13).subtitleOverlay =
      some (some ⟨"thirteen", "", true⟩) ∧
    resultAt13.videoTime = some 13 ∧ resultAt10.videoTime = some 10 ∧
    (handleTranscriptionState (handleTranscriptionState freshSessionState resultAt13)
        resultAt10).subtitleOverlay = some (some ⟨"ten", "", true⟩) := by
  refine ⟨?_, rfl, rfl, ?_⟩ <;> decide

/-- C7 amended: the ResultSink keeps no record of `videoTime` and renders
results strictly in arrival order: whenever a non-error result with
non-empty text arrives while the overlay exists, it unconditionally
replaces whatever was rendered before — including a previously delivered
fresher (larger `videoTime`) result. -/
theorem result_sink_arrival_order (s : ContentState) (r1 r2 : RespData)
    (hov : s.subtitleOverlay.isSome)
    (herr : r2.error = none)
    (hne : jsTrim (jsOr r2.original (jsOr r2.text "")) ≠ "") :
    (handleTranscriptionState (handleTranscriptionState s r1) r2).subtitleOverlay =
      some (some ⟨jsOr r2.original (jsOr r2.text ""), jsOr r2.translated "",
        (!(r2.showOriginal == some false)) && s.settingsShowOriginal⟩) := by
  obtain ⟨hset, hovi⟩ := handleTranscriptionState_preserves s r1
  have hov1 : (handleTranscriptionState s r1).subtitleOverlay.isSome := hovi.mpr hov
  obtain ⟨c, hc⟩ := Option.isSome_iff_exists.mp hov1
  conv_lhs => rw [handleTranscriptionState]
  rw [herr]
  simp only [Option.isSome_none, Bool.false_eq_true, if_false]
  rw [if_pos (Or.inl hne)]
  unfold displaySubtitleState
  rw [hc, hset]

/-- Witness for `result_sink_arrival_order`: the `videoTime = 13` result
arrives first, the `videoTime = 10` result second; the second one ends up
rendered. -/
theorem result_sink_arrival_order_witness :
    freshSessionState.subtitleOverlay.isSome ∧ resultAt10.error = none ∧
    jsTrim (jsOr resultAt10.original (jsOr resultAt10.text "")) ≠ "" ∧
    (handleTranscriptionState (handleTranscriptionState freshSessionState resultAt13)
        resultAt10).subtitleOverlay =
      some (some ⟨jsOr resultAt10.original (jsOr resultAt10.text ""),
        jsOr resultAt10.translated "",
        (!(resultAt10.showOriginal == some false)) && freshSessionState.settingsShowOriginal⟩) :=
  ⟨rfl, rfl, by decide,
    result_sink_arrival_order freshSessionState resultAt13 resultAt10 rfl rfl (by decide)⟩

/-- C3 (code bug): `handleGroqTranscription` performs exactly one fetch
and has no rate-limit handling.  On the trace whose first response is
HTTP 429 with `retry-after: 2` (and whose second would succeed), it
resolves immediately as the terminal failure "HTTP 429" after one
attempt, with no wait and no retry; a non-rate-limit HTTP 500 fails the
same way. -/
theorem handleGroqTranscription_no_retry_on_429 :
    handleGroqTranscription "gsk_key" true rateLimitTrace =
      (.error "HTTP 429", 1, []) ∧
    handleGroqTranscription "gsk_key" true [{ status := 500 }] =
      (.error "HTTP 500", 1, []) := by
  constructor <;> rfl

/-- C10: every stored capture sample is the integer truncation of
`clamp(x·32768, −32768, 32767)` and hence lies in [−32768, 32767]; the
final 16-bit wrap (`ToInt16`) is the identity on that range, and inputs
with `x ≥ 1` or `x ≤ −1` saturate at the bounds instead of wrapping. -/
theorem processAudioSample_spec (x : ℚ) :
    (-32768 ≤ processAudioSample x ∧ processAudioSample x ≤ 32767) ∧
    processAudioSample x = jsTruncate (max (-32768) (min 32767 (x * 32768))) ∧
    (1 ≤ x → processAudioSample x = 32767) ∧
    (x ≤ -1 → processAudioSample x = -32768) := by
  have hql : (-32768 : ℚ) ≤ max (-32768) (min 32767 (x * 32768)) := le_max_left _ _
  have hqu : max (-32768 : ℚ) (min 32767 (x * 32768)) ≤ 32767 :=
    max_le (by norm_num) (min_le_left _ _)
  have htl : (-32768 : ℤ) ≤ jsTruncate (max (-32768) (min 32767 (x * 32768))) := by
    unfold jsTruncate
    split_ifs with h
    · have h0 : (0 : ℤ) ≤ ⌊max (-32768 : ℚ) (min 32767 (x * 32768))⌋ := Int.floor_nonneg.mpr h
      omega
    · have h1 : (⌈(-32768 : ℚ)⌉ : ℤ) ≤ ⌈max (-32768 : ℚ) (min 32767 (x * 32768))⌉ :=
        Int.ceil_le_ceil hql
      have h2 : ⌈(-32768 : ℚ)⌉ = -32768 := by
        rw [show ((-32768 : ℚ)) = ((-32768 : ℤ) : ℚ) by norm_num]
        exact Int.ceil_intCast _
      omega
  have htu : jsTruncate (max (-32768) (min 32767 (x * 32768))) ≤ 32767 := by
    unfold jsTruncate
    split_ifs with h
    · have h1 : ⌊max (-32768 : ℚ) (min 32767 (x * 32768))⌋ ≤ ⌊(32767 : ℚ)⌋ :=
        Int.floor_le_floor hqu
      have h2 : ⌊(32767 : ℚ)⌋ = 32767 := by norm_num
      omega
    · have h1 : ⌈max (-32768 : ℚ) (min 32767 (x * 32768))⌉ ≤ 0 :=
        Int.ceil_le.mpr (by exact_mod_cast le_of_lt (not_le.mp h))
      omega
  have hid : processAudioSample x = jsTruncate (max (-32768) (min 32767 (x * 32768))) := by
    unfold processAudioSample jsToInt16
    dsimp only
    split_ifs with h <;> omega
  refine ⟨⟨?_, ?_⟩, hid, ?_, ?_⟩
  · rw [hid]; exact htl
  · rw [hid]; exact htu
  · intro hx
    have h32 : (32767 : ℚ) ≤ x * 32768 := by nlinarith
    have hmax : max (-32768 : ℚ) (min 32767 (x * 32768)) = 32767 := by
      rw [min_eq_left h32]
      exact max_eq_right (by norm_num)
    rw [hid, hmax]
    unfold jsTruncate
    rw [if_pos (by norm_num)]
    norm_num
  · intro hx
    have h32 : x * 32768 ≤ -32768 := by nlinarith
    have hmax : max (-32768 : ℚ) (min 32767 (x * 32768)) = -32768 := by
      rw [min_eq_right (by linarith)]
      exact max_eq_left h32
    rw [hid, hmax]
    unfold jsTruncate
    rw [if_neg (by norm_num)]
    rw [show ((-32768 : ℚ)) = ((-32768 : ℤ) : ℚ) by norm_num]
    exact Int.ceil_intCast _

/-- Witness for `processAudioSample_spec`: the out-of-range input `x = 2`
saturates at 32767. -/
theorem processAudioSample_spec_witness :
    ((1 : ℚ) ≤ 2) ∧ processAudioSample 2 = 32767 :=
  ⟨by norm_num, (processAudioSample_spec 2).2.2.1 (by norm_num)⟩

/-- The WAV buffer written by `createWavFile`, as the explicit byte
sequence: all constant header bytes evaluated, the three size/rate
fields kept symbolic. -/
theorem createWavFile_bytes (pcm : List ℤ) (r : ℕ) :
    createWavFile pcm r =
      82 :: 73 :: 70 :: 70 ::
      ((36 + pcm.length * 2) % 4294967296 % 256) ::
      ((36 + pcm.length * 2) % 4294967296 / 256 % 256) ::
      ((36 + pcm.length * 2) % 4294967296 / 65536 % 256) ::
      ((36 + pcm.length * 2) % 4294967296 / 16777216 % 256) ::
      87 :: 65 :: 86 :: 69 ::
      102 :: 109 :: 116 :: 32 ::
      16 :: 0 :: 0 :: 0 ::
      1 :: 0 ::
      1 :: 0 ::
      (r % 4294967296 % 256) ::
      (r % 4294967296 / 256 % 256) ::
      (r % 4294967296 / 65536 % 256) ::
      (r % 4294967296 / 16777216 % 256) ::
      (r * 2 % 4294967296 % 256) ::
      (r * 2 % 4294967296 / 256 % 256) ::
      (r * 2 % 4294967296 / 65536 % 256) ::
      (r * 2 % 4294967296 / 16777216 % 256) ::
      2 :: 0 ::
      16 :: 0 ::
      100 :: 97 :: 116 :: 97 ::
      (pcm.length * 2 % 4294967296 % 256) ::
      (pcm.length * 2 % 4294967296 / 256 % 256) ::
      (pcm.length * 2 % 4294967296 / 65536 % 256) ::
      (pcm.length * 2 % 4294967296 / 16777216 % 256) ::
      (pcm.map int16leBytes).flatten := by
  have hRIFF : strBytes "RIFF" = [82, 73, 70, 70] := by decide
  have hWAVE : strBytes "WAVE" = [87, 65, 86, 69] := by decide
  have hfmt : strBytes "fmt " = [102, 109, 116, 32] := by decide
  have hdata : strBytes "data" = [100, 97, 116, 97] := by decide
  unfold createWavFile
  rw [hRIFF, hWAVE, hfmt, hdata]
  simp only [u16le, u32le]
  norm_num [mul_comm]

/-- Each sample contributes exactly two bytes to the WAV payload. -/
theorem int16le_flatten_length (l : List ℤ) :
    ((l.map int16leBytes).flatten).length = 2 * l.length := by
  induction l with
  | nil => simp
  | cons a t ih =>
      simp [int16leBytes, ih]
      omega

/-- C8: for any PCM sample list and sample rate (within the 32-bit
ranges the header fields can hold), `createWavFile` produces exactly
`44 + 2n` bytes: the `RIFF`/`WAVE`/`fmt `/`data` tags, riff size
`36 + 2n`, audio format 1 (PCM), 1 channel, sample rate `r`, byte rate
`2r`, block align 2, 16 bits per sample and data-chunk size `2n`,
followed by the samples little-endian in their original order.  Being a
pure function of `(pcm, r)`, the framing is deterministic. -/
theorem createWavFile_spec (pcm : List ℤ) (r : ℕ)
    (hn : 36 + 2 * pcm.length < 4294967296) (hr : 2 * r < 4294967296) :
    (createWavFile pcm r).length = 44 + 2 * pcm.length ∧
    (createWavFile pcm r).take 4 = strBytes "RIFF" ∧
    readU32 (createWavFile pcm r) 4 = 36 + 2 * pcm.length ∧
    ((createWavFile pcm r).drop 8).take 4 = strBytes "WAVE" ∧
    ((createWavFile pcm r).drop 12).take 4 = strBytes "fmt " ∧
    readU32 (createWavFile pcm r) 16 = 16 ∧
    readU16 (createWavFile pcm r) 20 = 1 ∧
    readU16 (createWavFile pcm r) 22 = 1 ∧
    readU32 (createWavFile pcm r) 24 = r ∧
    readU32 (createWavFile pcm r) 28 = 2 * r ∧
    readU16 (createWavFile pcm r) 32 = 2 ∧
    readU16 (createWavFile pcm r) 34 = 16 ∧
    ((createWavFile pcm r).drop 36).take 4 = strBytes "data" ∧
    readU32 (createWavFile pcm r) 40 = 2 * pcm.length ∧
    (createWavFile pcm r).drop 44 = (pcm.map int16leBytes).flatten := by
  rw [createWavFile_bytes]
  have hlen : ((pcm.map int16leBytes).flatten).length + 44 = 44 + 2 * pcm.length := by
    rw [int16le_flatten_length]; omega
  refine ⟨hlen, rfl, ?_, rfl, rfl, rfl, rfl, rfl, ?_, ?_, rfl, rfl, rfl, ?_, rfl⟩ <;>
    · show _ = _
      simp only [readU32, byteAt]
      omega

/-- Witness for `createWavFile_spec` at `pcm = [1, -2]`, `r = 16000`. -/
theorem createWavFile_spec_witness :
    (36 + 2 * ([1, -2] : List ℤ).length < 4294967296) ∧
    (2 * 16000 < 4294967296) ∧
    readU32 (createWavFile [1, -2] 16000) 24 = 16000 ∧
    (createWavFile [1, -2] 16000).length = 44 + 2 * ([1, -2] : List ℤ).length := by
  obtain ⟨hlen, -, -, -, -, -, -, -, h24, -⟩ :=
    createWavFile_spec [1, -2] 16000 (by norm_num) (by norm_num)
  exact ⟨by norm_num, by norm_num, h24, hlen⟩

/-- The base64 alphabet decodes its own digits. -/
theorem decB64_encB64 : ∀ k < 64, decB64 (encB64 k) = k := by decide

/-- No base64 digit is the padding character. -/
theorem encB64_ne_pad : ∀ k < 64, encB64 k ≠ '=' := by decide

/-- `atob` inverts `btoa` on every byte sequence (bytes `< 256`). -/
theorem atobChars_btoaBytes :
    ∀ bs : List ℕ, (∀ b ∈ bs, b < 256) → atobChars (btoaBytes bs) = bs
  | [] => fun _ => rfl
  | [b0] => fun h => by
      have hb0 : b0 < 256 := h b0 (by simp)
      have e1 := decB64_encB64 (b0 / 4) (by omega)
      have e2 := decB64_encB64 (b0 % 4 * 16) (by omega)
      simp only [btoaBytes, atobChars]
      simp [e1, e2]
      omega
  | [b0, b1] => fun h => by
      have hb0 : b0 < 256 := h b0 (by simp)
      have hb1 : b1 < 256 := h b1 (by simp)
      have e1 := decB64_encB64 (b0 / 4) (by omega)
      have e2 := decB64_encB64 (b0 % 4 * 16 + b1 / 16) (by omega)
      have e3 := decB64_encB64 (b1 % 16 * 4) (by omega)
      have hne := encB64_ne_pad (b1 % 16 * 4) (by omega)
      simp only [btoaBytes, atobChars]
      simp [hne, e1, e2, e3]
      constructor <;> omega
  | b0 :: b1 :: b2 :: b3 :: rest => fun h => by
      have hb0 : b0 < 256 := h b0 (by simp)
      have hb1 : b1 < 256 := h b1 (by simp)
      have hb2 : b2 < 256 := h b2 (by simp)
      have e1 := decB64_encB64 (b0 / 4) (by omega)
      have e2 := decB64_encB64 (b0 % 4 * 16 + b1 / 16) (by omega)
      have e3 := decB64_encB64 (b1 % 16 * 4 + b2 / 64) (by omega)
      have e4 := decB64_encB64 (b2 % 64) (by omega)
      have hne3 := encB64_ne_pad (b1 % 16 * 4 + b2 / 64) (by omega)
      have hne4 := encB64_ne_pad (b2 % 64) (by omega)
      have ih := atobChars_btoaBytes (b3 :: rest) (fun b hb => h b (by simp at hb ⊢; tauto))
      simp only [btoaBytes, atobChars]
      simp [hne3, hne4, e1, e2, e3, e4, ih]
      refine ⟨by omega, by omega, by omega⟩
  | [b0, b1, b2] => fun h => by
      have hb0 : b0 < 256 := h b0 (by simp)
      have hb1 : b1 < 256 := h b1 (by simp)
      have hb2 : b2 < 256 := h b2 (by simp)
      have e1 := decB64_encB64 (b0 / 4) (by omega)
      have e2 := decB64_encB64 (b0 % 4 * 16 + b1 / 16) (by omega)
      have e3 := decB64_encB64 (b1 % 16 * 4 + b2 / 64) (by omega)
      have e4 := decB64_encB64 (b2 % 64) (by omega)
      have hne3 := encB64_ne_pad (b1 % 16 * 4 + b2 / 64) (by omega)
      have hne4 := encB64_ne_pad (b2 % 64) (by omega)
      simp only [btoaBytes, atobChars]
      simp [hne3, hne4, e1, e2, e3, e4]
      refine ⟨by omega, by omega, by omega⟩

/-- Reinterpreting the two little-endian bytes of an in-range 16-bit
sample recovers the sample. -/
theorem bytesToSamples_int16 (a : ℤ) (tail : List ℕ)
    (h1 : -32768 ≤ a) (h2 : a ≤ 32767) :
    bytesToSamples (int16leBytes a ++ tail) = a :: bytesToSamples tail := by
  simp only [int16leBytes, List.cons_append, List.nil_append, bytesToSamples,
    List.cons.injEq, and_true]
  constructor
  · split_ifs with hc <;> push_cast <;> omega
  · rfl

/-- C9: round trip of the audio wire encoding.  For every list of 16-bit
PCM samples, base64-encoding the underlying bytes with the content
script's `arrayBufferToBase64` (`btoaBytes`) and decoding them with the
base64-to-bytes step of the background script's `base64ToBlob`
(`atobChars`) recovers exactly the original byte sequence, and
reinterpreting those bytes as an `Int16Array` recovers exactly the
original samples. -/
theorem audio_wire_roundtrip (samples : List ℤ)
    (h : ∀ s ∈ samples, -32768 ≤ s ∧ s ≤ 32767) :
    atobChars (btoaBytes ((samples.map int16leBytes).flatten)) =
      (samples.map int16leBytes).flatten ∧
    bytesToSamples ((samples.map int16leBytes).flatten) = samples := by
  constructor
  · apply atobChars_btoaBytes
    intro b hb
    simp only [List.mem_flatten, List.mem_map] at hb
    obtain ⟨l, ⟨s', -, rfl⟩, hbl⟩ := hb
    simp only [int16leBytes, List.mem_cons, List.not_mem_nil, or_false] at hbl
    have hu : (s' % 65536).toNat < 65536 := by omega
    rcases hbl with hbl | hbl <;> omega
  · induction samples with
    | nil => rfl
    | cons a t ih =>
        simp only [List.map_cons, List.flatten_cons]
        rw [bytesToSamples_int16 a _ (h a (by simp)).1 (h a (by simp)).2]
        rw [ih (fun s hs => h s (by simp [hs]))]

/-- Witness for `audio_wire_roundtrip` at the sample list `[1, -2]`. -/
theorem audio_wire_roundtrip_witness :
    (∀ s ∈ ([1, -2] : List ℤ), -32768 ≤ s ∧ s ≤ 32767) ∧
    bytesToSamples ((([1, -2] : List ℤ).map int16leBytes).flatten) = [1, -2] :=
  ⟨by decide, (audio_wire_roundtrip [1, -2] (by decide)).2⟩
